import Mathlib

/-!
Verification development for the OpenSyndicationProtocol repository.

The handshake state machine is embedded from
`src/crates/server/src/connection/inbound.rs`
(`InboundConnection::<HandshakeState>::begin` and `send_close_err`);
the typed payload codec and dispatch from `src/crates/data/src/lib.rs`
(`DataType::decode_from_bytes`, `encode_to_bytes`, `handle`).
External collaborators (DNS resolver, RSA primitives, the transport) are
oracles supplied through an environment record, exactly as the code treats
them; wire-packet shapes and the framed `Protocol` channel come from the
`osp_protocol` crate, which is not part of the given sources, and are
modelled from the specification.
-/

namespace OSP

/-- Modelled from the spec: the connection-type classifier from the
`osp_protocol` crate (not under the given sources). The spec gives
`Unknown` as the initial value; other values are recorded during the
handshake, so they are modelled by an opaque tag. -/
inductive ConnectionType
  | Unknown
  | Known (tag : Nat)
deriving DecidableEq, Repr

/-- Modelled from the spec: guest-to-host handshake packets
(wire messages of the handshake phase). -/
inductive HandshakePacketGuestToHost
  | Hello (connection_type : ConnectionType)
  | Identify (hostname : String)
  | Verify (challenge : List Nat) (nonce : Nat)
deriving DecidableEq, Repr

/-- Modelled from the spec: host-to-guest handshake packets. -/
inductive HandshakePacketHostToGuest
  | Acknowledge (ok : Bool) (err : Option String)
  | Challenge (encrypted_challenge : List Nat) (nonce : Nat)
  | Close (can_continue : Bool) (err : Option String)
deriving DecidableEq, Repr

/-- The `io::ErrorKind` values `begin` produces. `UnexpectedEof` stands for
the transport error a `read_frame` on an exhausted stream yields; `Other`
covers propagated openssl / transport-write errors and the DNS
lookup-failure close (`io::ErrorKind::Other` in the source). -/
inductive ErrorKind
  | InvalidInput
  | InvalidData
  | PermissionDenied
  | Other
  | UnexpectedEof
deriving DecidableEq, Repr

/-- An RSA public key as a black-box oracle (the spec places RSA primitives
out of scope). `size` models `Rsa::size()`; `public_encrypt` models
`Rsa::public_encrypt` with PKCS1 padding writing the ciphertext buffer of
length `size`, an `Except.error` being an openssl `ErrorStack`. -/
structure RsaPubKey where
  size : Nat
  public_encrypt : List Nat → Except String (List Nat)

/-- The environment of one `begin` run: the successive `read_frame` results
(an exhausted list models the peer closing the stream), the success of each
`send_message` write in order (an exhausted list means the transport keeps
accepting writes), the DNS TXT-lookup oracle keyed by the queried name, the
`Rsa::public_key_from_pem` parsing oracle, and the bytes `rand_bytes`
produces for the challenge. -/
structure HsEnv where
  reads : List (Except (ErrorKind × String) HandshakePacketGuestToHost)
  sends : List Bool
  dns : String → Except String (List String)
  public_key_from_pem : String → Except String RsaPubKey
  randBytes : List Nat

/-- Result of `begin`: `ok ()` mirrors the source's `io::Result<()>` success
value (the unit value), `err` an `io::Error` of a kind and message, and
`panicked` an `unwrap` panic inside `send_close_err`. -/
inductive BeginResult
  | ok (u : Unit)
  | err (kind : ErrorKind) (msg : String)
  | panicked
deriving DecidableEq, Repr

/-- Observable outcome of one `begin` run: the returned result, the
host-to-guest messages successfully written to the transport in order, the
final `connection_type` field, and whether `rand_bytes` (challenge
generation) and `public_encrypt` were reached. -/
structure BeginOutput where
  result : BeginResult
  sent : List HandshakePacketHostToGuest
  connection_type : ConnectionType
  challengeGenerated : Bool
  encryptCalled : Bool
deriving DecidableEq, Repr

/-- One `send_message` call: consumes the head of the send-outcome list and
reports whether the write succeeded. -/
def takeSend (sends : List Bool) : List Bool × Bool :=
  match sends with
  | [] => ([], true)
  | b :: rest => (rest, b)

/-- Embeds `InboundConnection::<HandshakeState>::send_close_err`: sends
`Close { can_continue: false, err: Some(err) }`, `.unwrap()`s the write
result (a failed write therefore panics instead of returning), and
otherwise produces `io::Error::new(error_kind, err)`. Returns the remaining
send outcomes, the messages actually written, and the run result. -/
def send_close_err (sends : List Bool) (kind : ErrorKind) (msg : String) :
    List Bool × List HandshakePacketHostToGuest × BeginResult :=
  let s := takeSend sends
  if s.2 then
    (s.1, [HandshakePacketHostToGuest.Close false (some msg)], BeginResult.err kind msg)
  else
    (s.1, [], BeginResult.panicked)

/-- The message of the `send_close_err` taken when the TXT lookup returned
no record (`format!` string of inbound.rs line 131). -/
def dnsEmptyMsg (hostname : String) : String :=
  "Failed to resolve SRV record for " ++ hostname ++ ". Is it located at _osp." ++
    hostname ++ "?"

/-- The message of the `send_close_err` taken when the TXT lookup itself
failed (`format!` string of inbound.rs line 141), `e` being the resolver
error rendered by `to_string`. -/
def dnsFailMsg (hostname e : String) : String :=
  "Failed to resolve SRV record for " ++ hostname ++ ". Is it located at _osp." ++
    hostname ++ "?\n\nFurther Details: " ++ e

/-- The challenge buffer: `let mut challenge_bytes = [0; 256]` filled by
`rand_bytes`, so it always has exactly 256 bytes drawn from the
environment's randomness. -/
def fill256 (l : List Nat) : List Nat :=
  (l ++ List.replicate 256 0).take 256

/-- Embeds `InboundConnection::<HandshakeState>::begin` over the oracle
environment, with the connection's nonce (`HandshakeState.nonce`) as a
parameter. Every branch mirrors the source: read errors and transport-write
errors propagate through `?` without a close, `public_key_from_pem` and
`public_encrypt` failures likewise propagate through `?`, and the explicit
protocol-level aborts go through `send_close_err`. -/
def begin (env : HsEnv) (nonce : Nat) : BeginOutput :=
  match env.reads with
  | [] => ⟨.err .UnexpectedEof "eof", [], .Unknown, false, false⟩
  | (.error e) :: _ => ⟨.err e.1 e.2, [], .Unknown, false, false⟩
  | (.ok p1) :: reads1 =>
    match p1 with
    | .Hello ct =>
      let s1 := takeSend env.sends
      if s1.2 then
        let sent1 := [HandshakePacketHostToGuest.Acknowledge true none]
        match reads1 with
        | [] => ⟨.err .UnexpectedEof "eof", sent1, ct, false, false⟩
        | (.error e) :: _ => ⟨.err e.1 e.2, sent1, ct, false, false⟩
        | (.ok p2) :: reads2 =>
          match p2 with
          | .Identify hostname =>
            match env.dns ("_osp." ++ hostname) with
            | .error e =>
              let c := send_close_err s1.1 .Other (dnsFailMsg hostname e)
              ⟨c.2.2, sent1 ++ c.2.1, ct, false, false⟩
            | .ok records =>
              match records with
              | [] =>
                let c := send_close_err s1.1 .InvalidData (dnsEmptyMsg hostname)
                ⟨c.2.2, sent1 ++ c.2.1, ct, false, false⟩
              | record :: _ =>
                match env.public_key_from_pem record with
                | .error e => ⟨.err .Other e, sent1, ct, false, false⟩
                | .ok pub_key =>
                  let challenge_bytes := fill256 env.randBytes
                  match pub_key.public_encrypt challenge_bytes with
                  | .error e => ⟨.err .Other e, sent1, ct, true, true⟩
                  | .ok encrypted_challenge =>
                    let s2 := takeSend s1.1
                    if s2.2 then
                      let sent2 := sent1 ++
                        [HandshakePacketHostToGuest.Challenge encrypted_challenge nonce]
                      match reads2 with
                      | [] => ⟨.err .UnexpectedEof "eof", sent2, ct, true, true⟩
                      | (.error e) :: _ => ⟨.err e.1 e.2, sent2, ct, true, true⟩
                      | (.ok p3) :: _ =>
                        match p3 with
                        | .Verify challenge vnonce =>
                          if vnonce ≠ nonce then
                            let c := send_close_err s2.1 .InvalidData "Invalid nonce"
                            ⟨c.2.2, sent2 ++ c.2.1, ct, true, true⟩
                          else if challenge = challenge_bytes then
                            let s3 := takeSend s2.1
                            if s3.2 then
                              ⟨.ok (), sent2 ++
                                [HandshakePacketHostToGuest.Close true none], ct, true, true⟩
                            else
                              ⟨.err .Other "send failed", sent2, ct, true, true⟩
                          else
                            let c := send_close_err s2.1 .PermissionDenied "Challenge failed"
                            ⟨c.2.2, sent2 ++ c.2.1, ct, true, true⟩
                        | _ =>
                          let c := send_close_err s2.1 .InvalidInput
                            "Expected challenge verification packet"
                          ⟨c.2.2, sent2 ++ c.2.1, ct, true, true⟩
                    else
                      ⟨.err .Other "send failed", sent1, ct, true, true⟩
          | _ =>
            let c := send_close_err s1.1 .InvalidInput "Expected identify packet"
            ⟨c.2.2, sent1 ++ c.2.1, ct, false, false⟩
      else
        ⟨.err .Other "send failed", [], ct, false, false⟩
    | _ =>
      let c := send_close_err env.sends .InvalidInput "Expected hello packet"
      ⟨c.2.2, c.2.1, .Unknown, false, false⟩

/-- Modelled from the spec: transfer-phase guest-to-host packets. The
concrete catalog is out of the core's scope; a packet carries a typed
payload identified by its 128-bit payload identity. -/
inductive TransferPacketGuestToHost
  | Payload (id : Nat) (bytes : List Nat)
deriving DecidableEq, Repr

/-- Modelled from the spec: transfer-phase host-to-guest packets. -/
inductive TransferPacketHostToGuest
  | Payload (id : Nat) (bytes : List Nat)
deriving DecidableEq, Repr

/-- Modelled from the spec: a framed packet decoder for inbound messages of
type `α` (`PacketDecoder` of the `osp_protocol` crate, not under the given
sources). It buffers partial frames; a freshly constructed decoder
(`PacketDecoder::new`) has an empty buffer. -/
structure PacketDecoder (α : Type) where
  buffer : List Nat
deriving DecidableEq, Repr

/-- Modelled from the spec: `PacketDecoder::new()`, a fresh decoder. -/
def PacketDecoder.new {α : Type} : PacketDecoder α := ⟨[]⟩

/-- Modelled from the spec: a packet encoder for outbound messages of type
`α`; a fresh one has written nothing. -/
structure PacketEncoder (α : Type) where
  pending : List Nat
deriving DecidableEq, Repr

/-- Modelled from the spec: `PacketEncoder::new()`, a fresh encoder. -/
def PacketEncoder.new {α : Type} : PacketEncoder α := ⟨[]⟩

/-- Modelled from the spec: the framed protocol channel over one byte
stream, parameterized independently by the inbound and outbound message
types. `streamId` identifies the underlying stream. -/
structure Protocol (I O : Type) where
  streamId : Nat
  decoder : PacketDecoder I
  encoder : PacketEncoder O

/-- Modelled from the spec: `Protocol::map_codecs` produces a new channel
bound to the same underlying stream but with codec instances built by the
two factories from the old ones. -/
def Protocol.map_codecs {I O I2 O2 : Type} (p : Protocol I O)
    (df : PacketDecoder I → PacketDecoder I2)
    (ef : PacketEncoder O → PacketEncoder O2) : Protocol I2 O2 :=
  ⟨p.streamId, df p.decoder, ef p.encoder⟩

/-- The connection object of inbound.rs, a type-state over `TState`. -/
structure InboundConnection (TState : Type) where
  connection_type : ConnectionType
  state : TState

/-- The `Handshake` state value: the per-attempt nonce and the channel with
handshake-phase packet types. -/
structure HandshakeState where
  nonce : Nat
  protocol : Protocol HandshakePacketGuestToHost HandshakePacketHostToGuest

/-- The `Transfer` state value: the channel with transfer-phase packet
types. -/
structure TransferState where
  protocol : Protocol TransferPacketGuestToHost TransferPacketHostToGuest

/-- Embeds the conversion
`From<InboundConnection<HandshakeState>> for InboundConnection<TransferState>`:
keeps `connection_type` and rebases the channel onto fresh transfer-phase
codecs with `map_codecs`. -/
def toTransfer (value : InboundConnection HandshakeState) :
    InboundConnection TransferState :=
  ⟨value.connection_type,
    ⟨Protocol.map_codecs value.state.protocol
      (fun _ => PacketDecoder.new) (fun _ => PacketEncoder.new)⟩⟩

/-! ### The typed payload system of `src/crates/data/src/lib.rs`

`DataType::decode_from_bytes` and `DataType::encode_to_bytes` delegate to
the external `bincode` crate with `bincode::config::standard()` on both
paths. `bincode` is modelled from its documented format for a
representative family of payload shapes (booleans, unsigned integers,
products): the standard configuration is little-endian with
variable-length integer encoding. -/

/-- Modelled from the spec: a bincode configuration — byte order and the
integer-encoding rule. This is the data `bincode::config::standard()`
fixes; it is a protocol constant, not a per-call argument of the
`DataType` codec methods. -/
structure Configuration where
  littleEndian : Bool
  varint : Bool
deriving DecidableEq, Repr

/-- Modelled from the spec: `bincode::config::standard()` — little endian,
variable-length integers. -/
def Configuration.standard : Configuration := ⟨true, true⟩

/-- Binary schema of a payload type: the shape `#[derive(Encode, Decode)]`
derives the codec from. `sUInt` is an unsigned 64-bit integer field,
`sPair` the product composition struct fields reduce to. -/
inductive DataSchema
  | sBool
  | sUInt
  | sPair (a b : DataSchema)
deriving DecidableEq, Repr

/-- A payload instance of a schema in the modelled family. -/
inductive DataValue
  | dBool (b : Bool)
  | dUInt (n : Nat)
  | dPair (a b : DataValue)
deriving DecidableEq, Repr

/-- Whether a payload instance inhabits a schema (integer fields fit in
64 bits, shapes line up). -/
def typed : DataSchema → DataValue → Bool
  | .sBool, .dBool _ => true
  | .sUInt, .dUInt n => decide (n < 2 ^ 64)
  | .sPair s t, .dPair a b => typed s a && typed t b
  | _, _ => false

/-- Little-endian bytes of `n`, exactly `k` of them. -/
def leBytes : Nat → Nat → List Nat
  | 0, _ => []
  | k + 1, n => n % 256 :: leBytes k (n / 256)

/-- Value of a little-endian byte list. -/
def leVal : List Nat → Nat
  | [] => 0
  | b :: rest => b + 256 * leVal rest

/-- A `k`-byte machine word under a configuration: little- or big-endian
byte order. -/
def word (cfg : Configuration) (k n : Nat) : List Nat :=
  if cfg.littleEndian then leBytes k n else (leBytes k n).reverse

/-- Integer encoding of bincode under a configuration: the documented
variable-length encoding (single byte below 251; marker 251/252/253
followed by a 2-, 4- or 8-byte word), or a fixed 8-byte word. -/
def intBytes (cfg : Configuration) (n : Nat) : List Nat :=
  if cfg.varint then
    if n < 251 then [n]
    else if n < 2 ^ 16 then 251 :: word cfg 2 n
    else if n < 2 ^ 32 then 252 :: word cfg 4 n
    else 253 :: word cfg 8 n
  else word cfg 8 n

/-- Splits the first `k` bytes off a buffer, failing when it is too
short. -/
def takeBytes : Nat → List Nat → Option (List Nat × List Nat)
  | 0, l => some ([], l)
  | _ + 1, [] => none
  | k + 1, b :: l => (takeBytes k l).map (fun p => (b :: p.1, p.2))

/-- Reads one `k`-byte word off the buffer under a configuration. -/
def readWord (cfg : Configuration) (k : Nat) (l : List Nat) :
    Option (Nat × List Nat) :=
  (takeBytes k l).map (fun p =>
    (leVal (if cfg.littleEndian then p.1 else p.1.reverse), p.2))

/-- Integer decoding of bincode under a configuration, inverse direction of
`intBytes`. -/
def intDecode (cfg : Configuration) (l : List Nat) : Option (Nat × List Nat) :=
  if cfg.varint then
    match l with
    | [] => none
    | b :: rest =>
      if b < 251 then some (b, rest)
      else if b = 251 then readWord cfg 2 rest
      else if b = 252 then readWord cfg 4 rest
      else if b = 253 then readWord cfg 8 rest
      else none
  else readWord cfg 8 l

/-- Modelled from the spec: bincode encoding of a payload instance — a
boolean is one byte, an integer uses the configured integer encoding,
struct fields are concatenated in order. -/
def bincodeEncode (cfg : Configuration) : DataValue → List Nat
  | .dBool b => [if b then 1 else 0]
  | .dUInt n => intBytes cfg n
  | .dPair a b => bincodeEncode cfg a ++ bincodeEncode cfg b

/-- Modelled from the spec: bincode decoding, directed by the schema,
consuming from the front of the buffer and returning the rest. -/
def bincodeDecode (cfg : Configuration) : DataSchema → List Nat →
    Option (DataValue × List Nat)
  | .sBool, [] => none
  | .sBool, b :: rest =>
    if b = 0 then some (.dBool false, rest)
    else if b = 1 then some (.dBool true, rest)
    else none
  | .sUInt, l => (intDecode cfg l).map (fun p => (.dUInt p.1, p.2))
  | .sPair s t, l =>
    match bincodeDecode cfg s l with
    | none => none
    | some (a, l1) =>
      match bincodeDecode cfg t l1 with
      | none => none
      | some (b, l2) => some (.dPair a b, l2)

/-- The `DataType<TData>` descriptor of lib.rs: the schema stands for the
type parameter `TData`, `handlers` for the registered
`Box<dyn DataHandler<TData>>` list (handlers carry an opaque identity). -/
structure DataType where
  schema : DataSchema
  handlers : List Nat
deriving DecidableEq, Repr

/-- Embeds `DataType::new()`: an empty handler list. -/
def DataType.new (s : DataSchema) : DataType := ⟨s, []⟩

/-- Modelled from the spec: handler registration appends to the ordered
handler list (the registry module of the data crate is not under the given
sources; the spec fixes append semantics). -/
def DataType.register (dt : DataType) (h : Nat) : DataType :=
  ⟨dt.schema, dt.handlers ++ [h]⟩

/-- The invocation trace of one dispatch: which handler was invoked with
which payload, in order. -/
def handleLoop : List Nat → DataValue → List (Nat × DataValue)
  | [], _ => []
  | h :: rest, obj => (h, obj) :: handleLoop rest obj

/-- Embeds `DataType::handle`: a loop over `self.handlers` calling
`handler.handle(obj.clone())` — each registered handler is invoked with (a
clone of the `Box` holding) the same borrowed payload. -/
def DataType.handle (dt : DataType) (obj : DataValue) : List (Nat × DataValue) :=
  handleLoop dt.handlers obj

/-- Modelled from the spec: `bincode::decode_from_slice` under a
configuration — decodes one instance off the front of the buffer and
reports the number of bytes read. -/
def decode_from_slice (config : Configuration) (schema : DataSchema)
    (buf : List Nat) : Option (DataValue × Nat) :=
  (bincodeDecode config schema buf).map (fun p => (p.1, buf.length - p.2.length))

/-- Modelled from the spec: `bincode::encode_into_slice` under a
configuration — writes the encoding into the front of the caller's buffer
slice, failing when the slice is undersized, and reports the number of
bytes written. -/
def encode_into_slice (config : Configuration) (buf : List Nat)
    (obj : DataValue) : Option (List Nat × Nat) :=
  let bytes := bincodeEncode config obj
  if bytes.length ≤ buf.length then
    some (bytes ++ buf.drop bytes.length, bytes.length)
  else
    none

/-- Embeds `DataType::decode_from_bytes`: `let config =
bincode::config::standard(); bincode::decode_from_slice(buf, config)` —
the configuration is the fixed standard one, not a parameter. `none` is a
`DecodeError`. -/
def DataType.decode_from_bytes (dt : DataType) (buf : List Nat) :
    Option (DataValue × Nat) :=
  decode_from_slice Configuration.standard dt.schema buf

/-- Embeds `DataType::encode_to_bytes`: `let config =
bincode::config::standard(); bincode::encode_into_slice(obj, buf, config)`
— again with the fixed standard configuration. `none` is an
`EncodeError`. -/
def DataType.encode_to_bytes (dt : DataType) (buf : List Nat) (obj : DataValue) :
    Option (List Nat × Nat) :=
  encode_into_slice Configuration.standard buf obj

/-! ### Packet classifiers and concrete runs used by the theorems below -/

/-- Whether a host-to-guest packet is a `Challenge`. -/
def isChallengePacket : HandshakePacketHostToGuest → Bool
  | .Challenge _ _ => true
  | _ => false

/-- Whether a guest-to-host packet is a `Hello`. -/
def isHelloPacket : HandshakePacketGuestToHost → Bool
  | .Hello _ => true
  | _ => false

/-- Whether a guest-to-host packet is an `Identify`. -/
def isIdentifyPacket : HandshakePacketGuestToHost → Bool
  | .Identify _ => true
  | _ => false

/-- Whether a guest-to-host packet is a `Verify`. -/
def isVerifyPacket : HandshakePacketGuestToHost → Bool
  | .Verify _ _ => true
  | _ => false

/-- A concrete RSA oracle: a 2048-bit key whose encryption always yields a
fixed 256-byte ciphertext. -/
def key0 : RsaPubKey :=
  ⟨256, fun _ => .ok (List.replicate 256 1)⟩

/-- A concrete run in which the peer behaves exactly as the handshake
expects: `Hello`, `Identify` for a hostname whose TXT record parses to
`key0`, then `Verify` echoing the connection nonce `7` and the exact
challenge bytes. -/
def happyEnv : HsEnv :=
  { reads := [.ok (.Hello .Unknown), .ok (.Identify "example.test"),
      .ok (.Verify (List.replicate 256 0) 7)],
    sends := [],
    dns := fun _ => .ok ["key"],
    public_key_from_pem := fun _ => .ok key0,
    randBytes := List.replicate 256 0 }

/-- A concrete run in which the resolved TXT record does not parse as a
public key: `public_key_from_pem` fails after the `Acknowledge` step. -/
def badKeyEnv : HsEnv :=
  { reads := [.ok (.Hello .Unknown), .ok (.Identify "example.test")],
    sends := [],
    dns := fun _ => .ok ["notakey"],
    public_key_from_pem := fun _ => .error "bad pem",
    randBytes := [] }

/-- A concrete run in which the peer opens with `Identify` instead of
`Hello` (three well-formed reads are supplied so the stream never hits
end-of-file). -/
def wrongFirstEnv : HsEnv :=
  { reads := [.ok (.Identify "x"), .ok (.Identify "x"), .ok (.Identify "x")],
    sends := [],
    dns := fun _ => .ok ["key"],
    public_key_from_pem := fun _ => .ok key0,
    randBytes := [] }

/-- A concrete run whose `Verify` echoes the right challenge bytes but the
wrong nonce (`8` instead of the connection's `7`). -/
def wrongNonceEnv : HsEnv :=
  { reads := [.ok (.Hello .Unknown), .ok (.Identify "example.test"),
      .ok (.Verify (List.replicate 256 0) 8)],
    sends := [],
    dns := fun _ => .ok ["key"],
    public_key_from_pem := fun _ => .ok key0,
    randBytes := List.replicate 256 0 }

/-- A concrete run whose `Verify` echoes the right nonce but wrong
challenge bytes. -/
def wrongChallengeEnv : HsEnv :=
  { reads := [.ok (.Hello .Unknown), .ok (.Identify "example.test"),
      .ok (.Verify [9] 7)],
    sends := [],
    dns := fun _ => .ok ["key"],
    public_key_from_pem := fun _ => .ok key0,
    randBytes := List.replicate 256 0 }

/-- A concrete run in which the TXT lookup succeeds but yields no
records. -/
def noRecordEnv : HsEnv :=
  { reads := [.ok (.Hello .Unknown), .ok (.Identify "example.test")],
    sends := [],
    dns := fun _ => .ok [],
    public_key_from_pem := fun _ => .ok key0,
    randBytes := [] }

/-- A concrete run whose first packet is not a `Hello`. -/
def env6a : HsEnv :=
  { reads := [.ok (.Identify "x")],
    sends := [],
    dns := fun _ => .ok [],
    public_key_from_pem := fun _ => .ok key0,
    randBytes := [] }

/-- A concrete run whose second packet is not an `Identify`. -/
def env6b : HsEnv :=
  { reads := [.ok (.Hello .Unknown), .ok (.Verify [] 0)],
    sends := [],
    dns := fun _ => .ok [],
    public_key_from_pem := fun _ => .ok key0,
    randBytes := [] }

/-- A concrete run whose third packet is not a `Verify`. -/
def env6c : HsEnv :=
  { reads := [.ok (.Hello .Unknown), .ok (.Identify "example.test"),
      .ok (.Hello .Unknown)],
    sends := [],
    dns := fun _ => .ok ["key"],
    public_key_from_pem := fun _ => .ok key0,
    randBytes := [] }

/-! ### Helper lemmas -/

theorem takeSend_all_true {l : List Bool} (h : ∀ b ∈ l, b = true) :
    takeSend l = (l.tail, true) := by
  cases l with
  | nil => rfl
  | cons b r => simp [takeSend, h b (List.mem_cons_self b r)]

theorem all_true_tail {l : List Bool} (h : ∀ b ∈ l, b = true) :
    ∀ b ∈ l.tail, b = true :=
  fun b hb => h b (List.mem_of_mem_tail hb)

theorem dnsEmptyMsg_names (hostname : String) :
    ∃ pre post, dnsEmptyMsg hostname = pre ++ ("_osp." ++ hostname) ++ post := by
  refine ⟨"Failed to resolve SRV record for " ++ hostname ++ ". Is it located at ",
    "?", ?_⟩
  have hb : ". Is it located at " ++ "_osp." = ". Is it located at _osp." := rfl
  simp only [dnsEmptyMsg, String.append_assoc]
  rw [← hb]
  simp only [String.append_assoc]

theorem dnsFailMsg_names (hostname e : String) :
    ∃ pre post, dnsFailMsg hostname e = pre ++ ("_osp." ++ hostname) ++ post := by
  refine ⟨"Failed to resolve SRV record for " ++ hostname ++ ". Is it located at ",
    "?\n\nFurther Details: " ++ e, ?_⟩
  have hb : ". Is it located at " ++ "_osp." = ". Is it located at _osp." := rfl
  simp only [dnsFailMsg, String.append_assoc]
  rw [← hb]
  simp only [String.append_assoc]

theorem handleLoop_eq_map (l : List Nat) (p : DataValue) :
    handleLoop l p = l.map (fun h => (h, p)) := by
  induction l with
  | nil => rfl
  | cons h t ih => simp [handleLoop, ih]

theorem foldl_register_handlers (hs : List Nat) (dt : DataType) :
    (hs.foldl DataType.register dt).handlers = dt.handlers ++ hs := by
  induction hs generalizing dt with
  | nil => simp
  | cons h t ih => simp [DataType.register, ih]

set_option maxRecDepth 10000 in
theorem fill256_replicate :
    fill256 (List.replicate 256 0) = List.replicate 256 0 := by
  simp [fill256, ← List.replicate_add, List.take_replicate]

/-! ### The claims -/

/-- C7: the Handshake-to-Transfer conversion keeps the connection-type
classifier, keeps the underlying stream, and replaces the channel's codec
pair with freshly constructed transfer-phase codecs via `map_codecs`; the
converted channel's decoder is typed at transfer-phase packets, so no
handshake-phase message type can be decoded after conversion. -/
theorem claim7_transfer_conversion (c : InboundConnection HandshakeState) :
    (toTransfer c).connection_type = c.connection_type ∧
    (toTransfer c).state.protocol.streamId = c.state.protocol.streamId ∧
    (toTransfer c).state.protocol.decoder =
      (PacketDecoder.new : PacketDecoder TransferPacketGuestToHost) ∧
    (toTransfer c).state.protocol.encoder =
      (PacketEncoder.new : PacketEncoder TransferPacketHostToGuest) :=
  ⟨rfl, rfl, rfl, rfl⟩

/-- C9: dispatching one payload on a descriptor holding the handlers
registered in order `hs` invokes exactly those handlers, once each, in
registration order, each invocation receiving the same payload instance
`p`. -/
theorem claim9_dispatch_order (s : DataSchema) (hs : List Nat) (p : DataValue) :
    (hs.foldl DataType.register (DataType.new s)).handle p =
      hs.map (fun h => (h, p)) := by
  simp [DataType.handle, handleLoop_eq_map, foldl_register_handlers, DataType.new]

/-- C10: `send_close_err` unwraps the write of the Close notification — on
every abort path, if the transport rejects the Close message the task
panics instead of returning the io error built from the original kind and
message; and a `begin` run aborting at the Hello step over a transport
whose next write fails ends panicked. -/
theorem claim10_close_unwrap :
    (∀ sends kind msg, (takeSend sends).2 = false →
      send_close_err sends kind msg = ((takeSend sends).1, [], .panicked)) ∧
    (∀ sends kind msg, (takeSend sends).2 = true →
      send_close_err sends kind msg =
        ((takeSend sends).1, [.Close false (some msg)], .err kind msg)) ∧
    (∀ env nonce p rest, env.reads = .ok p :: rest → isHelloPacket p = false →
      env.sends = [false] → (begin env nonce).result = .panicked) := by
  refine ⟨?_, ?_, ?_⟩
  · intro sends kind msg h
    simp [send_close_err, h]
  · intro sends kind msg h
    simp [send_close_err, h]
  · intro env nonce p rest hre hp hs
    cases p with
    | Hello ct => simp [isHelloPacket] at hp
    | Identify h => simp [begin, hre, hs, send_close_err, takeSend]
    | Verify c n => simp [begin, hre, hs, send_close_err, takeSend]

/-- Witness for C10 at concrete inputs: a failing write under
`send_close_err` panics, and a `begin` run that aborts at the Hello step
over a transport whose write fails ends panicked. -/
theorem claim10_close_unwrap_witness :
    send_close_err [false] .InvalidInput "Expected hello packet" =
      ([], [], .panicked) ∧
    (begin ⟨[.ok (.Identify "x")], [false], fun _ => .ok [],
      fun _ => .error "no", []⟩ 0).result = .panicked := by
  constructor
  · exact claim10_close_unwrap.1 [false] .InvalidInput "Expected hello packet" rfl
  · exact claim10_close_unwrap.2.2 ⟨[.ok (.Identify "x")], [false], fun _ => .ok [],
      fun _ => .error "no", []⟩ 0 (.Identify "x") [] rfl rfl rfl

/-- C6: at each step of the handshake, receiving a guest-to-host message of
any type other than the expected one (Hello first, then Identify, then
Verify) aborts with an `InvalidInput` error whose message is the
corresponding "Expected X packet" string; the steps happen in this fixed
order. -/
theorem claim6_unexpected_packet :
    (∀ (env : HsEnv) (nonce : Nat) (p : HandshakePacketGuestToHost)
        (rest : List (Except (ErrorKind × String) HandshakePacketGuestToHost)),
      env.reads = .ok p :: rest → isHelloPacket p = false →
      (∀ b ∈ env.sends, b = true) →
      (begin env nonce).result = .err .InvalidInput "Expected hello packet") ∧
    (∀ (env : HsEnv) (nonce : Nat) (ct : ConnectionType)
        (p : HandshakePacketGuestToHost)
        (rest : List (Except (ErrorKind × String) HandshakePacketGuestToHost)),
      env.reads = .ok (.Hello ct) :: .ok p :: rest → isIdentifyPacket p = false →
      (∀ b ∈ env.sends, b = true) →
      (begin env nonce).result = .err .InvalidInput "Expected identify packet") ∧
    (∀ (env : HsEnv) (nonce : Nat) (ct : ConnectionType) (hostname : String)
        (p : HandshakePacketGuestToHost)
        (rest : List (Except (ErrorKind × String) HandshakePacketGuestToHost))
        (rec : String) (more : List String) (key : RsaPubKey) (ctxt : List Nat),
      env.reads = .ok (.Hello ct) :: .ok (.Identify hostname) :: .ok p :: rest →
      isVerifyPacket p = false →
      (∀ b ∈ env.sends, b = true) →
      env.dns ("_osp." ++ hostname) = .ok (rec :: more) →
      env.public_key_from_pem rec = .ok key →
      key.public_encrypt (fill256 env.randBytes) = .ok ctxt →
      (begin env nonce).result =
        .err .InvalidInput "Expected challenge verification packet") := by
  refine ⟨?_, ?_, ?_⟩
  · intro env nonce p rest hre hp hS
    have h1 := takeSend_all_true hS
    cases p with
    | Hello ct => simp [isHelloPacket] at hp
    | Identify h => simp [begin, hre, send_close_err, h1]
    | Verify c n => simp [begin, hre, send_close_err, h1]
  · intro env nonce ct p rest hre hp hS
    have h1 := takeSend_all_true hS
    have h2 := takeSend_all_true (all_true_tail hS)
    cases p with
    | Identify h => simp [isIdentifyPacket] at hp
    | Hello ct2 => simp [begin, hre, send_close_err, h1, h2]
    | Verify c n => simp [begin, hre, send_close_err, h1, h2]
  · intro env nonce ct hostname p rest rec more key ctxt hre hp hS hdns hkey henc
    have h1 := takeSend_all_true hS
    have h2 := takeSend_all_true (all_true_tail hS)
    have h3 := takeSend_all_true (all_true_tail (all_true_tail hS))
    cases p with
    | Verify c n => simp [isVerifyPacket] at hp
    | Hello ct2 => simp [begin, hre, send_close_err, h1, h2, h3, hdns, hkey, henc]
    | Identify h => simp [begin, hre, send_close_err, h1, h2, h3, hdns, hkey, henc]

/-- C3: a `Verify` whose nonce differs from the nonce the connection issued
makes `begin` abort with an `InvalidData` error ("Invalid nonce") after a
`Close` with `can_continue: false`; the run never succeeds, whatever the
challenge bytes in the `Verify` are — including the correct ones. -/
theorem claim3_nonce_mismatch (env : HsEnv) (nonce : Nat) (ct : ConnectionType)
    (hostname : String) (ch : List Nat) (vn : Nat)
    (rest : List (Except (ErrorKind × String) HandshakePacketGuestToHost))
    (rec : String) (more : List String) (key : RsaPubKey) (ctxt : List Nat)
    (hre : env.reads =
      .ok (.Hello ct) :: .ok (.Identify hostname) :: .ok (.Verify ch vn) :: rest)
    (hS : ∀ b ∈ env.sends, b = true)
    (hdns : env.dns ("_osp." ++ hostname) = .ok (rec :: more))
    (hkey : env.public_key_from_pem rec = .ok key)
    (henc : key.public_encrypt (fill256 env.randBytes) = .ok ctxt)
    (hvn : vn ≠ nonce) :
    (begin env nonce).result = .err .InvalidData "Invalid nonce" ∧
    (∀ u, (begin env nonce).result ≠ .ok u) ∧
    (begin env nonce).sent.getLast? =
      some (.Close false (some "Invalid nonce")) := by
  have h1 := takeSend_all_true hS
  have h2 := takeSend_all_true (all_true_tail hS)
  have h3 := takeSend_all_true (all_true_tail (all_true_tail hS))
  refine ⟨?_, ?_, ?_⟩ <;>
    simp [begin, hre, send_close_err, h1, h2, h3, hdns, hkey, henc, hvn]

/-- C4: a `Verify` carrying the connection's nonce but challenge bytes that
differ from the 256 generated bytes makes `begin` abort with a
`PermissionDenied` error ("Challenge failed") after sending `Close` with
`can_continue: false`. -/
theorem claim4_challenge_mismatch (env : HsEnv) (nonce : Nat)
    (ct : ConnectionType) (hostname : String) (ch : List Nat)
    (rest : List (Except (ErrorKind × String) HandshakePacketGuestToHost))
    (rec : String) (more : List String) (key : RsaPubKey) (ctxt : List Nat)
    (hre : env.reads =
      .ok (.Hello ct) :: .ok (.Identify hostname) :: .ok (.Verify ch nonce) :: rest)
    (hS : ∀ b ∈ env.sends, b = true)
    (hdns : env.dns ("_osp." ++ hostname) = .ok (rec :: more))
    (hkey : env.public_key_from_pem rec = .ok key)
    (henc : key.public_encrypt (fill256 env.randBytes) = .ok ctxt)
    (hch : ch ≠ fill256 env.randBytes) :
    (begin env nonce).result = .err .PermissionDenied "Challenge failed" ∧
    (∀ u, (begin env nonce).result ≠ .ok u) ∧
    (begin env nonce).sent.getLast? =
      some (.Close false (some "Challenge failed")) := by
  have h1 := takeSend_all_true hS
  have h2 := takeSend_all_true (all_true_tail hS)
  have h3 := takeSend_all_true (all_true_tail (all_true_tail hS))
  refine ⟨?_, ?_, ?_⟩ <;>
    simp [begin, hre, send_close_err, h1, h2, h3, hdns, hkey, henc, hch]

/-- C5: when the TXT lookup for `_osp.<hostname>` fails or yields no
record, `begin` aborts with an error whose message names the location
`_osp.<hostname>`, no challenge bytes are generated or encrypted, and no
`Challenge` message is ever sent (the last and only host message after the
`Acknowledge` is the failing `Close`). -/
theorem claim5_dns_abort (env : HsEnv) (nonce : Nat) (ct : ConnectionType)
    (hostname : String)
    (rest : List (Except (ErrorKind × String) HandshakePacketGuestToHost))
    (hre : env.reads = .ok (.Hello ct) :: .ok (.Identify hostname) :: rest)
    (hS : ∀ b ∈ env.sends, b = true)
    (hdns : (∃ e, env.dns ("_osp." ++ hostname) = .error e) ∨
      env.dns ("_osp." ++ hostname) = .ok []) :
    ∃ k m, (begin env nonce).result = .err k m ∧
      (∃ pre post, m = pre ++ ("_osp." ++ hostname) ++ post) ∧
      (begin env nonce).challengeGenerated = false ∧
      (begin env nonce).encryptCalled = false ∧
      (∀ msg ∈ (begin env nonce).sent, isChallengePacket msg = false) ∧
      (begin env nonce).sent.getLast? = some (.Close false (some m)) := by
  have h1 := takeSend_all_true hS
  have h2 := takeSend_all_true (all_true_tail hS)
  rcases hdns with ⟨e, hdns⟩ | hdns
  · refine ⟨.Other, dnsFailMsg hostname e, ?_, dnsFailMsg_names hostname e,
      ?_, ?_, ?_, ?_⟩ <;>
      simp [begin, hre, send_close_err, h1, h2, hdns, isChallengePacket]
  · refine ⟨.InvalidData, dnsEmptyMsg hostname, ?_, dnsEmptyMsg_names hostname,
      ?_, ?_, ?_, ?_⟩ <;>
      simp [begin, hre, send_close_err, h1, h2, hdns, isChallengePacket]

/-- C1 (amended): a run in which the peer sends the expected sequence —
`Hello`, `Identify` for a hostname whose first TXT record parses as an RSA
key, then `Verify` with the connection's nonce and the exact 256 challenge
bytes — makes `begin` succeed: the host sends `Acknowledge`, the encrypted
`Challenge`, then `Close` with `can_continue: true`, records the peer's
connection-type classifier, and returns `Ok` carrying the unit value (the
`Transfer`-state connection is produced by the separate `From` conversion,
not returned by `begin`). -/
theorem claim1_success (env : HsEnv) (nonce : Nat) (ct : ConnectionType)
    (hostname : String)
    (rest : List (Except (ErrorKind × String) HandshakePacketGuestToHost))
    (rec : String) (more : List String) (key : RsaPubKey) (ctxt : List Nat)
    (hre : env.reads = .ok (.Hello ct) :: .ok (.Identify hostname) ::
      .ok (.Verify (fill256 env.randBytes) nonce) :: rest)
    (hS : ∀ b ∈ env.sends, b = true)
    (hdns : env.dns ("_osp." ++ hostname) = .ok (rec :: more))
    (hkey : env.public_key_from_pem rec = .ok key)
    (henc : key.public_encrypt (fill256 env.randBytes) = .ok ctxt) :
    (begin env nonce).result = .ok () ∧
    (begin env nonce).sent =
      [.Acknowledge true none, .Challenge ctxt nonce, .Close true none] ∧
    (begin env nonce).connection_type = ct := by
  have h1 := takeSend_all_true hS
  have h2 := takeSend_all_true (all_true_tail hS)
  have h3 := takeSend_all_true (all_true_tail (all_true_tail hS))
  refine ⟨?_, ?_, ?_⟩ <;>
    simp [begin, hre, send_close_err, h1, h2, h3, hdns, hkey, henc]

/-- C2 (amended): on every abort path that `begin` detects itself — wrong
packet type, missing or failed DNS record, wrong nonce, wrong challenge
bytes — a `Close` with `can_continue: false` and the error's message is
the last message sent before the error is returned. Concretely: whenever
the transport reads and writes succeed and the key-parse and encryption
oracles succeed (so that no error is propagated by a bare `?`), every
error return of `begin` is preceded by such a `Close`. Failures
propagated by `?` (key parse, RSA encryption, transport reads/writes)
return without sending any `Close`. -/
theorem claim2_close_before_error (env : HsEnv) (nonce : Nat)
    (hR : ∀ r ∈ env.reads, ∃ p, r = Except.ok p)
    (hLen : 3 ≤ env.reads.length)
    (hS : ∀ b ∈ env.sends, b = true)
    (hOr : ∀ s, ∃ key, env.public_key_from_pem s = .ok key ∧
      ∀ bytes, ∃ ctxt, key.public_encrypt bytes = .ok ctxt) :
    ∀ k m, (begin env nonce).result = .err k m →
      (begin env nonce).sent.getLast? = some (.Close false (some m)) := by
  have h1 := takeSend_all_true hS
  have h2 := takeSend_all_true (all_true_tail hS)
  have h3 := takeSend_all_true (all_true_tail (all_true_tail hS))
  rcases hv : env.reads with _ | ⟨r1, t1⟩
  · rw [hv] at hLen; exact absurd hLen (by simp)
  rcases ht1 : t1 with _ | ⟨r2, t2⟩
  · rw [hv, ht1] at hLen; exact absurd hLen (by simp)
  rcases ht2 : t2 with _ | ⟨r3, rest⟩
  · rw [hv, ht1, ht2] at hLen; exact absurd hLen (by simp)
  obtain ⟨p1, hp1⟩ := hR r1 (by rw [hv]; exact List.mem_cons_self _ _)
  obtain ⟨p2, hp2⟩ := hR r2 (by rw [hv, ht1]; simp)
  obtain ⟨p3, hp3⟩ := hR r3 (by rw [hv, ht1, ht2]; simp)
  have hre : env.reads = .ok p1 :: .ok p2 :: .ok p3 :: rest := by
    rw [hv, ht1, ht2, hp1, hp2, hp3]
  intro k m h
  cases p1 with
  | Identify x =>
    simp [begin, hre, send_close_err, h1] at h ⊢
    rcases h with ⟨rfl, rfl⟩; simp
  | Verify c n =>
    simp [begin, hre, send_close_err, h1] at h ⊢
    rcases h with ⟨rfl, rfl⟩; simp
  | Hello ct =>
    cases p2 with
    | Hello ct2 =>
      simp [begin, hre, send_close_err, h1, h2] at h ⊢
      rcases h with ⟨rfl, rfl⟩; simp
    | Verify c n =>
      simp [begin, hre, send_close_err, h1, h2] at h ⊢
      rcases h with ⟨rfl, rfl⟩; simp
    | Identify hostname =>
      cases hdns : env.dns ("_osp." ++ hostname) with
      | error e =>
        simp [begin, hre, send_close_err, h1, h2, hdns] at h ⊢
        rcases h with ⟨rfl, rfl⟩; simp
      | ok records =>
        cases records with
        | nil =>
          simp [begin, hre, send_close_err, h1, h2, hdns] at h ⊢
          rcases h with ⟨rfl, rfl⟩; simp
        | cons rec more =>
          obtain ⟨key, hkey, hencA⟩ := hOr rec
          obtain ⟨ctxt, henc⟩ := hencA (fill256 env.randBytes)
          cases p3 with
          | Hello ct2 =>
            simp [begin, hre, send_close_err, h1, h2, h3, hdns, hkey, henc] at h ⊢
            rcases h with ⟨rfl, rfl⟩; simp
          | Identify x =>
            simp [begin, hre, send_close_err, h1, h2, h3, hdns, hkey, henc] at h ⊢
            rcases h with ⟨rfl, rfl⟩; simp
          | Verify ch vn =>
            by_cases hvn : vn = nonce
            · by_cases hch : ch = fill256 env.randBytes
              · simp [begin, hre, send_close_err, h1, h2, h3, hdns, hkey, henc,
                  hvn, hch] at h
              · simp [begin, hre, send_close_err, h1, h2, h3, hdns, hkey, henc,
                  hvn, hch] at h ⊢
                rcases h with ⟨rfl, rfl⟩; simp
            · simp [begin, hre, send_close_err, h1, h2, h3, hdns, hkey, henc,
                hvn] at h ⊢
              rcases h with ⟨rfl, rfl⟩; simp

set_option maxRecDepth 10000 in
/-- C1 counterexample: on the fully successful concrete run `happyEnv`
(expected message sequence, matching key, correct nonce and challenge
bytes), `begin` completes by sending `Close` with `can_continue: true` —
but the value it returns to the caller is `Ok(())`, the unit value, not a
`Transfer`-state connection: the conversion is a separate step the caller
performs. -/
theorem claim1_counterexample :
    (begin happyEnv 7).result = .ok () ∧
    (begin happyEnv 7).sent.getLast? = some (.Close true none) := by
  decide

set_option maxRecDepth 10000 in
/-- Witness for C1 at the concrete run `happyEnv`. -/
theorem claim1_success_witness :
    (begin happyEnv 7).result = .ok () ∧
    (begin happyEnv 7).sent = [.Acknowledge true none,
      .Challenge (List.replicate 256 1) 7, .Close true none] ∧
    (begin happyEnv 7).connection_type = .Unknown :=
  claim1_success happyEnv 7 .Unknown "example.test" [] "key" [] key0
    (List.replicate 256 1)
    (by
      have h : happyEnv.randBytes = List.replicate 256 0 := rfl
      rw [h, fill256_replicate]
      rfl)
    (fun b hb => absurd hb (List.not_mem_nil b)) rfl rfl rfl

/-- C2 counterexample: when the resolved TXT record does not parse as a
public key, `begin` returns the error propagated by `?` and the peer never
receives a `Close`: the only message sent in the whole run is the
`Acknowledge`. -/
theorem claim2_counterexample :
    (begin badKeyEnv 0).result = .err .Other "bad pem" ∧
    (begin badKeyEnv 0).sent = [.Acknowledge true none] := by
  decide

/-- Witness for C2 at the concrete run `wrongFirstEnv`: the abort at the
Hello step ends with the matching `Close`. -/
theorem claim2_close_before_error_witness :
    (begin wrongFirstEnv 0).sent.getLast? =
      some (.Close false (some "Expected hello packet")) :=
  claim2_close_before_error wrongFirstEnv 0
    (by intro r hr; simp [wrongFirstEnv] at hr; exact ⟨_, hr⟩)
    (by decide) (by simp [wrongFirstEnv])
    (fun _ => ⟨key0, rfl, fun _ => ⟨List.replicate 256 1, rfl⟩⟩)
    .InvalidInput "Expected hello packet" (by decide)

/-- Witness for C3 at the concrete run `wrongNonceEnv`. -/
theorem claim3_nonce_mismatch_witness :
    (begin wrongNonceEnv 7).result = .err .InvalidData "Invalid nonce" ∧
    (begin wrongNonceEnv 7).sent.getLast? =
      some (.Close false (some "Invalid nonce")) :=
  ⟨(claim3_nonce_mismatch wrongNonceEnv 7 .Unknown "example.test"
      (List.replicate 256 0) 8 [] "key" [] key0 (List.replicate 256 1)
      rfl (fun b hb => absurd hb (List.not_mem_nil b)) rfl rfl rfl (by decide)).1,
   (claim3_nonce_mismatch wrongNonceEnv 7 .Unknown "example.test"
      (List.replicate 256 0) 8 [] "key" [] key0 (List.replicate 256 1)
      rfl (fun b hb => absurd hb (List.not_mem_nil b)) rfl rfl rfl (by decide)).2.2⟩

/-- Witness for C4 at the concrete run `wrongChallengeEnv`. -/
theorem claim4_challenge_mismatch_witness :
    (begin wrongChallengeEnv 7).result =
      .err .PermissionDenied "Challenge failed" ∧
    (begin wrongChallengeEnv 7).sent.getLast? =
      some (.Close false (some "Challenge failed")) :=
  ⟨(claim4_challenge_mismatch wrongChallengeEnv 7 .Unknown "example.test"
      [9] [] "key" [] key0 (List.replicate 256 1)
      rfl (fun b hb => absurd hb (List.not_mem_nil b)) rfl rfl rfl (by decide)).1,
   (claim4_challenge_mismatch wrongChallengeEnv 7 .Unknown "example.test"
      [9] [] "key" [] key0 (List.replicate 256 1)
      rfl (fun b hb => absurd hb (List.not_mem_nil b)) rfl rfl rfl (by decide)).2.2⟩

/-- Witness for C5 at the concrete run `noRecordEnv`. -/
theorem claim5_dns_abort_witness :
    ∃ k m, (begin noRecordEnv 0).result = .err k m ∧
      (∃ pre post, m = pre ++ ("_osp." ++ "example.test") ++ post) ∧
      (begin noRecordEnv 0).challengeGenerated = false ∧
      (begin noRecordEnv 0).encryptCalled = false ∧
      (∀ msg ∈ (begin noRecordEnv 0).sent, isChallengePacket msg = false) ∧
      (begin noRecordEnv 0).sent.getLast? = some (.Close false (some m)) :=
  claim5_dns_abort noRecordEnv 0 .Unknown "example.test" [] rfl
    (by simp [noRecordEnv]) (Or.inr rfl)

/-- Witness for C6 at the concrete runs `env6a`, `env6b`, `env6c`. -/
theorem claim6_unexpected_packet_witness :
    (begin env6a 0).result = .err .InvalidInput "Expected hello packet" ∧
    (begin env6b 0).result = .err .InvalidInput "Expected identify packet" ∧
    (begin env6c 0).result =
      .err .InvalidInput "Expected challenge verification packet" :=
  ⟨claim6_unexpected_packet.1 env6a 0 (.Identify "x") [] rfl rfl
      (by simp [env6a]),
   claim6_unexpected_packet.2.1 env6b 0 .Unknown (.Verify [] 0) [] rfl rfl
      (by simp [env6b]),
   claim6_unexpected_packet.2.2 env6c 0 .Unknown "example.test"
      (.Hello .Unknown) [] "key" [] key0 (List.replicate 256 1) rfl rfl
      (by simp [env6c]) rfl rfl rfl⟩

theorem leBytes_length (k : Nat) : ∀ n, (leBytes k n).length = k := by
  induction k with
  | zero => intro n; rfl
  | succ k ih => intro n; simp [leBytes, ih]

theorem leVal_leBytes (k : Nat) : ∀ n, n < 256 ^ k → leVal (leBytes k n) = n := by
  induction k with
  | zero =>
    intro n h
    have h0 : n = 0 := Nat.lt_one_iff.mp (by simpa using h)
    subst h0; rfl
  | succ k ih =>
    intro n h
    have hdiv : n / 256 < 256 ^ k := by
      rw [Nat.div_lt_iff_lt_mul (by norm_num : 0 < 256)]
      rw [pow_succ] at h; exact h
    simp only [leBytes, leVal, ih _ hdiv]
    exact Nat.mod_add_div n 256

theorem takeBytes_append (l r : List Nat) :
    takeBytes l.length (l ++ r) = some (l, r) := by
  induction l with
  | nil => rfl
  | cons b t ih => simp [takeBytes, ih]

theorem readWord_leBytes (k n : Nat) (r : List Nat) (h : n < 256 ^ k) :
    readWord Configuration.standard k (leBytes k n ++ r) = some (n, r) := by
  have ht := takeBytes_append (leBytes k n) r
  rw [leBytes_length k n] at ht
  simp [readWord, Configuration.standard, ht, leVal_leBytes k n h]

theorem intDecode_intBytes (n : Nat) (r : List Nat) (h : n < 2 ^ 64) :
    intDecode Configuration.standard
      (intBytes Configuration.standard n ++ r) = some (n, r) := by
  by_cases h1 : n < 251
  · simp [intBytes, intDecode, Configuration.standard, h1]
  · by_cases h2 : n < 65536
    · have hn : n < 256 ^ 2 := by simpa using h2
      simp [intBytes, intDecode, Configuration.standard, word, h1, h2]
      exact readWord_leBytes 2 n r hn
    · by_cases h3 : n < 4294967296
      · have hn : n < 256 ^ 4 := by simpa using h3
        simp [intBytes, intDecode, Configuration.standard, word, h1, h2, h3]
        exact readWord_leBytes 4 n r hn
      · have hn : n < 256 ^ 8 := by simpa using h
        simp [intBytes, intDecode, Configuration.standard, word, h1, h2, h3]
        exact readWord_leBytes 8 n r hn

theorem bincodeDecode_encode (v : DataValue) : ∀ (s : DataSchema) (r : List Nat),
    typed s v = true →
    bincodeDecode Configuration.standard s
      (bincodeEncode Configuration.standard v ++ r) = some (v, r) := by
  induction v with
  | dBool b =>
    intro s r ht
    cases s with
    | sBool => cases b <;> simp [bincodeEncode, bincodeDecode]
    | sUInt => simp [typed] at ht
    | sPair s1 s2 => simp [typed] at ht
  | dUInt n =>
    intro s r ht
    cases s with
    | sBool => simp [typed] at ht
    | sUInt =>
      have h : n < 2 ^ 64 := by simpa [typed] using ht
      simp [bincodeEncode, bincodeDecode, intDecode_intBytes n r h]
    | sPair s1 s2 => simp [typed] at ht
  | dPair a b iha ihb =>
    intro s r ht
    cases s with
    | sBool => simp [typed] at ht
    | sUInt => simp [typed] at ht
    | sPair s1 s2 =>
      have hab : typed s1 a = true ∧ typed s2 b = true := by
        simpa [typed, Bool.and_eq_true] using ht
      simp [bincodeEncode, bincodeDecode, List.append_assoc,
        iha s1 _ hab.1, ihb s2 r hab.2]

/-- C8: on any descriptor, encoding a well-typed payload instance into a
large-enough buffer and then decoding the result yields the same instance
back, with the decoder reporting exactly as many bytes read as the encoder
reported written; and both methods are the fixed standard-configuration
bincode codec — the configuration is not a per-call argument. -/
theorem claim8_roundtrip (dt : DataType) (p : DataValue) (buf : List Nat)
    (ht : typed dt.schema p = true)
    (hlen : (bincodeEncode Configuration.standard p).length ≤ buf.length) :
    ∃ outBuf n, dt.encode_to_bytes buf p = some (outBuf, n) ∧
      dt.decode_from_bytes outBuf = some (p, n) ∧
      dt.encode_to_bytes buf p = encode_into_slice Configuration.standard buf p ∧
      dt.decode_from_bytes outBuf =
        decode_from_slice Configuration.standard dt.schema outBuf := by
  refine ⟨bincodeEncode Configuration.standard p ++
      buf.drop (bincodeEncode Configuration.standard p).length,
    (bincodeEncode Configuration.standard p).length, ?_, ?_, rfl, rfl⟩
  · simp [DataType.encode_to_bytes, encode_into_slice, hlen]
  · simp [DataType.decode_from_bytes, decode_from_slice,
      bincodeDecode_encode p dt.schema _ ht]

/-- Witness for C8 at a concrete descriptor and payload: a pair of a
boolean and the integer 300 encoded into an 8-byte buffer. -/
theorem claim8_roundtrip_witness :
    ∃ outBuf n,
      (DataType.new (.sPair .sBool .sUInt)).encode_to_bytes
        [0, 0, 0, 0, 0, 0, 0, 0] (.dPair (.dBool true) (.dUInt 300)) =
        some (outBuf, n) ∧
      (DataType.new (.sPair .sBool .sUInt)).decode_from_bytes outBuf =
        some (.dPair (.dBool true) (.dUInt 300), n) ∧
      (DataType.new (.sPair .sBool .sUInt)).encode_to_bytes
        [0, 0, 0, 0, 0, 0, 0, 0] (.dPair (.dBool true) (.dUInt 300)) =
        encode_into_slice Configuration.standard [0, 0, 0, 0, 0, 0, 0, 0]
          (.dPair (.dBool true) (.dUInt 300)) ∧
      (DataType.new (.sPair .sBool .sUInt)).decode_from_bytes outBuf =
        decode_from_slice Configuration.standard
          (DataType.new (.sPair .sBool .sUInt)).schema outBuf :=
  claim8_roundtrip (DataType.new (.sPair .sBool .sUInt))
    (.dPair (.dBool true) (.dUInt 300)) [0, 0, 0, 0, 0, 0, 0, 0]
    (by decide) (by decide)

/-- Witness for C7 at a concrete handshake-state connection. -/
theorem claim7_transfer_conversion_witness :
    (toTransfer ⟨.Unknown, ⟨7, ⟨0, PacketDecoder.new, PacketEncoder.new⟩⟩⟩).connection_type =
      (⟨.Unknown, ⟨7, ⟨0, PacketDecoder.new, PacketEncoder.new⟩⟩⟩ :
        InboundConnection HandshakeState).connection_type ∧
    (toTransfer ⟨.Unknown, ⟨7, ⟨0, PacketDecoder.new, PacketEncoder.new⟩⟩⟩).state.protocol.streamId =
      (⟨.Unknown, ⟨7, ⟨0, PacketDecoder.new, PacketEncoder.new⟩⟩⟩ :
        InboundConnection HandshakeState).state.protocol.streamId ∧
    (toTransfer ⟨.Unknown, ⟨7, ⟨0, PacketDecoder.new, PacketEncoder.new⟩⟩⟩).state.protocol.decoder =
      (PacketDecoder.new : PacketDecoder TransferPacketGuestToHost) ∧
    (toTransfer ⟨.Unknown, ⟨7, ⟨0, PacketDecoder.new, PacketEncoder.new⟩⟩⟩).state.protocol.encoder =
      (PacketEncoder.new : PacketEncoder TransferPacketHostToGuest) :=
  claim7_transfer_conversion ⟨.Unknown, ⟨7, ⟨0, PacketDecoder.new, PacketEncoder.new⟩⟩⟩

/-- Witness for C9 at a concrete descriptor: three handlers registered in
order and one dispatched payload. -/
theorem claim9_dispatch_order_witness :
    (([1, 2, 3] : List Nat).foldl DataType.register
      (DataType.new .sBool)).handle (.dBool true) =
      [(1, .dBool true), (2, .dBool true), (3, .dBool true)] :=
  claim9_dispatch_order .sBool [1, 2, 3] (.dBool true)

end OSP
